import Mathlib

/-!
Shallow embedding of the NAV-erosion metrics engine (`src/calculator.py`).

Observations are `(date, close_price, distribution)` records; dates are ISO
`"YYYY-MM-DD"` strings and the code sorts by comparing those strings, so the
embedding keeps dates as `String` and sorts with the lexicographic order.
Python's `sorted` is a stable sort; `List.insertionSort` with a total
preorder is also stable, so the two agree on every input, ties included.
Prices and distributions are modelled as exact rationals.
-/

namespace NavErosion

/-- One monthly data point, as the dicts handed to `calculator.py`:
`date`, `close_price`, `distribution`, and the optional `year_month` key
(read with `data.get('year_month', data['date'][:7])`). -/
structure Observation where
  date : String
  close_price : ℚ
  distribution : ℚ
  year_month : Option String
deriving DecidableEq

/-- The three status flags returned by `get_flag`. -/
inductive Flag where
  | OK
  | WARNING
  | SELL
deriving DecidableEq

/-- `calculate_nav_erosion` from `src/calculator.py`. -/
def calculate_nav_erosion (start_price end_price : ℚ) : ℚ :=
  if start_price ≤ 0 then 0
  else (end_price - start_price) / start_price

/-- `calculate_true_return` from `src/calculator.py`. -/
def calculate_true_return (start_price end_price total_distributions : ℚ) : ℚ :=
  if start_price ≤ 0 then 0
  else ((end_price - start_price) + total_distributions) / start_price

/-- `get_flag` from `src/calculator.py`: sell threshold tested first. -/
def get_flag (nav_erosion_pct warn_threshold sell_threshold : ℚ) : Flag :=
  if nav_erosion_pct ≤ sell_threshold then Flag.SELL
  else if nav_erosion_pct ≤ warn_threshold then Flag.WARNING
  else Flag.OK

/-- The sort key used throughout `calculator.py`: `sorted(data, key=lambda x: x['date'])`. -/
def dateLe (a b : Observation) : Prop := a.date ≤ b.date

instance : DecidableRel dateLe := fun a b => inferInstanceAs (Decidable (a.date ≤ b.date))

instance : IsTotal Observation dateLe := ⟨fun a b => le_total a.date b.date⟩

instance : IsTrans Observation dateLe := ⟨fun _ _ _ h1 h2 => le_trans h1 h2⟩

/-- Strict version of the sort key, used to reason about series with distinct dates. -/
def dateLt (a b : Observation) : Prop := a.date < b.date

instance : IsAntisymm Observation dateLt := ⟨fun _ _ h1 h2 => absurd h2 (lt_asymm h1)⟩

/-- The dict returned by `calculate_metrics`. -/
structure MetricsSnapshot where
  calc_date : String
  window_start : String
  window_end : String
  start_price : ℚ
  end_price : ℚ
  total_distributions : ℚ
  nav_erosion_pct : ℚ
  true_return_pct : ℚ
  flag : Flag
deriving DecidableEq

/-- `calculate_metrics` from `src/calculator.py`.  The wall-clock stamp
`datetime.now().strftime('%Y-%m-%d')` is modelled as the explicit
`calc_date` argument, per the spec's injected-current-time note. -/
def calculate_metrics (calc_date : String) (monthly_data : List Observation)
    (warn_threshold sell_threshold : ℚ) : Option MetricsSnapshot :=
  if monthly_data.length < 2 then none
  else
    match List.insertionSort dateLe monthly_data with
    | [] => none
    | first :: rest =>
      let sorted_data := first :: rest
      let lastObs := sorted_data.getLast (List.cons_ne_nil first rest)
      let start_price := first.close_price
      let end_price := lastObs.close_price
      let total_distributions := (sorted_data.map Observation.distribution).sum
      let nav_erosion_pct := calculate_nav_erosion start_price end_price
      let true_return_pct := calculate_true_return start_price end_price total_distributions
      let flag := get_flag nav_erosion_pct warn_threshold sell_threshold
      some ⟨calc_date, first.date, lastObs.date, start_price, end_price,
        total_distributions, nav_erosion_pct, true_return_pct, flag⟩

/-- One row of the breakdown table returned by `generate_monthly_breakdown`. -/
structure MonthlyBreakdownRow where
  month : String
  date : String
  close_price : ℚ
  distribution : ℚ
  cumulative_erosion_pct : ℚ
deriving DecidableEq

/-- `generate_monthly_breakdown` from `src/calculator.py`. -/
def generate_monthly_breakdown (monthly_data : List Observation) : List MonthlyBreakdownRow :=
  if monthly_data.isEmpty then []
  else
    match List.insertionSort dateLe monthly_data with
    | [] => []
    | first :: rest =>
      let start_price := first.close_price
      (first :: rest).map fun data =>
        ⟨data.year_month.getD (data.date.take 7), data.date, data.close_price,
          data.distribution, calculate_nav_erosion start_price data.close_price⟩

/-- `calculate_distribution_yield` from `src/calculator.py`. -/
def calculate_distribution_yield (monthly_data : List Observation) : ℚ :=
  if monthly_data.isEmpty then 0
  else
    match List.insertionSort dateLe monthly_data with
    | [] => 0
    | first :: rest =>
      let sorted_data := first :: rest
      let total_distributions := (sorted_data.map Observation.distribution).sum
      let months : ℕ := sorted_data.length
      let current_price := (sorted_data.getLast (List.cons_ne_nil first rest)).close_price
      if current_price ≤ 0 ∨ months = 0 then 0
      else total_distributions / (months : ℚ) * 12 / current_price

/-- The three observations of the spec's concrete scenario. -/
def demoO1 : Observation := ⟨"2024-01-31", 20, 0.20, some "2024-01"⟩

def demoO2 : Observation := ⟨"2024-02-29", 19, 0.20, some "2024-02"⟩

def demoO3 : Observation := ⟨"2024-03-31", 18, 0.20, some "2024-03"⟩

def demoObs : List Observation := [demoO1, demoO2, demoO3]

/-- A series whose first (sorted) close price is degenerate (zero). -/
def degO1 : Observation := ⟨"2024-01-31", 0, 0.10, some "2024-01"⟩

/-- Second point of the degenerate-start series. -/
def degO2 : Observation := ⟨"2024-02-29", 19, 0.10, some "2024-02"⟩

/-- Two observations sharing one date but with different prices. -/
def cexA : Observation := ⟨"2024-01-31", 1, 0, none⟩

/-- Second observation with the same date as `cexA`. -/
def cexB : Observation := ⟨"2024-01-31", 2, 0, none⟩

/-- `calculate_nav_erosion` vanishes on a null window, with or without the
degenerate-input guard firing. -/
theorem calculate_nav_erosion_self (p : ℚ) : calculate_nav_erosion p p = 0 := by
  unfold calculate_nav_erosion
  split
  · rfl
  · simp

/-- The degenerate-input guard of `calculate_nav_erosion`. -/
theorem calculate_nav_erosion_nonpos (s e : ℚ) (h : s ≤ 0) : calculate_nav_erosion s e = 0 := by
  unfold calculate_nav_erosion
  rw [if_pos h]

/-- The degenerate-input guard of `calculate_true_return`. -/
theorem calculate_true_return_nonpos (s e t : ℚ) (h : s ≤ 0) :
    calculate_true_return s e t = 0 := by
  unfold calculate_true_return
  rw [if_pos h]

/-- Evaluation lemma: `calculate_metrics` on a series of length at least 2
whose sorted form is `first :: rest`. -/
theorem calculate_metrics_eq (d : String) (l : List Observation) (w s : ℚ)
    (first : Observation) (rest : List Observation)
    (h2 : 2 ≤ l.length) (hs : List.insertionSort dateLe l = first :: rest) :
    calculate_metrics d l w s =
      some ⟨d, first.date, ((first :: rest).getLast (List.cons_ne_nil first rest)).date,
        first.close_price,
        ((first :: rest).getLast (List.cons_ne_nil first rest)).close_price,
        ((first :: rest).map Observation.distribution).sum,
        calculate_nav_erosion first.close_price
          ((first :: rest).getLast (List.cons_ne_nil first rest)).close_price,
        calculate_true_return first.close_price
          ((first :: rest).getLast (List.cons_ne_nil first rest)).close_price
          ((first :: rest).map Observation.distribution).sum,
        get_flag
          (calculate_nav_erosion first.close_price
            ((first :: rest).getLast (List.cons_ne_nil first rest)).close_price) w s⟩ := by
  unfold calculate_metrics
  rw [if_neg (by omega), hs]

/-- Evaluation lemma: `generate_monthly_breakdown` on a series whose sorted
form is `first :: rest`. -/
theorem generate_monthly_breakdown_eq (l : List Observation)
    (first : Observation) (rest : List Observation)
    (hs : List.insertionSort dateLe l = first :: rest) :
    generate_monthly_breakdown l =
      (first :: rest).map fun data =>
        ⟨data.year_month.getD (data.date.take 7), data.date, data.close_price,
          data.distribution, calculate_nav_erosion first.close_price data.close_price⟩ := by
  have hne : l.isEmpty = false := by
    cases l with
    | nil => simp [List.insertionSort] at hs
    | cons a as => rfl
  unfold generate_monthly_breakdown
  rw [hne, hs]
  rfl

/-- Evaluation lemma: `calculate_distribution_yield` on a series whose sorted
form is `first :: rest`. -/
theorem calculate_distribution_yield_eq (l : List Observation)
    (first : Observation) (rest : List Observation)
    (hs : List.insertionSort dateLe l = first :: rest) :
    calculate_distribution_yield l =
      (if ((first :: rest).getLast (List.cons_ne_nil first rest)).close_price ≤ 0 ∨
          (first :: rest).length = 0 then 0
       else ((first :: rest).map Observation.distribution).sum /
          ((first :: rest).length : ℚ) * 12 /
          ((first :: rest).getLast (List.cons_ne_nil first rest)).close_price) := by
  have hne : l.isEmpty = false := by
    cases l with
    | nil => simp [List.insertionSort] at hs
    | cons a as => rfl
  unfold calculate_distribution_yield
  rw [hne, hs]
  rfl

/-- The spec's three-observation scenario is already in ascending date order. -/
theorem demo_sorted : List.Sorted dateLe demoObs := by
  have d12 : dateLe demoO1 demoO2 := by
    show ("2024-01-31" : String) ≤ "2024-02-29"
    simp only [String.le_iff_toList_le]
    decide
  have d23 : dateLe demoO2 demoO3 := by
    show ("2024-02-29" : String) ≤ "2024-03-31"
    simp only [String.le_iff_toList_le]
    decide
  exact List.Sorted.cons d12 (List.Sorted.cons d23 (List.sorted_singleton _))

/-- Sorting the demo scenario leaves it unchanged. -/
theorem demo_insertionSort : List.insertionSort dateLe demoObs = [demoO1, demoO2, demoO3] :=
  List.Sorted.insertionSort_eq demo_sorted

/-- C1: on a series of length at least 2, `calculate_metrics` sorts by date,
takes the first sorted price as `start_price` and the last as `end_price`,
sums `distribution` over all observations, derives erosion, true return and
flag with the three base operations, and stamps the window with the first and
last sorted dates. -/
theorem calculate_metrics_spec (d : String) (l : List Observation) (w s : ℚ)
    (first : Observation) (rest : List Observation)
    (h2 : 2 ≤ l.length) (hs : List.insertionSort dateLe l = first :: rest) :
    List.Sorted dateLe (first :: rest) ∧ (first :: rest).Perm l ∧
    calculate_metrics d l w s =
      some ⟨d, first.date, ((first :: rest).getLast (List.cons_ne_nil first rest)).date,
        first.close_price,
        ((first :: rest).getLast (List.cons_ne_nil first rest)).close_price,
        (l.map Observation.distribution).sum,
        calculate_nav_erosion first.close_price
          ((first :: rest).getLast (List.cons_ne_nil first rest)).close_price,
        calculate_true_return first.close_price
          ((first :: rest).getLast (List.cons_ne_nil first rest)).close_price
          (l.map Observation.distribution).sum,
        get_flag
          (calculate_nav_erosion first.close_price
            ((first :: rest).getLast (List.cons_ne_nil first rest)).close_price) w s⟩ := by
  have hperm : (first :: rest).Perm l := hs ▸ List.perm_insertionSort dateLe l
  have hsum : ((first :: rest).map Observation.distribution).sum =
      (l.map Observation.distribution).sum := (hperm.map Observation.distribution).sum_eq
  refine ⟨hs ▸ List.sorted_insertionSort dateLe l, hperm, ?_⟩
  rw [calculate_metrics_eq d l w s first rest h2 hs, hsum]

/-- Closed instance of `calculate_metrics_spec`: the spec's concrete
scenario, yielding erosion `-0.10`, distributions `0.60`, true return
`-0.07` and flag `SELL`. -/
theorem calculate_metrics_spec_witness :
    (2 ≤ demoObs.length ∧ List.insertionSort dateLe demoObs = [demoO1, demoO2, demoO3]) ∧
    calculate_metrics "2024-04-30" demoObs (-0.06) (-0.10) =
      some ⟨"2024-04-30", "2024-01-31", "2024-03-31", 20, 18, 0.60, -0.10, -0.07,
        Flag.SELL⟩ := by
  have h2 : 2 ≤ demoObs.length := by norm_num [demoObs]
  have hmain := calculate_metrics_spec "2024-04-30" demoObs (-0.06) (-0.10) demoO1
    [demoO2, demoO3] h2 demo_insertionSort
  refine ⟨⟨h2, demo_insertionSort⟩, hmain.2.2.trans ?_⟩
  norm_num [demoObs, demoO1, demoO2, demoO3, calculate_nav_erosion, calculate_true_return,
    get_flag, MetricsSnapshot.mk.injEq]

/-- C5: fewer than 2 observations make `calculate_metrics` return the
explicit no-result value `none`, whatever the observations and thresholds. -/
theorem calculate_metrics_insufficient (d : String) (l : List Observation) (w s : ℚ)
    (h : l.length < 2) : calculate_metrics d l w s = none := by
  unfold calculate_metrics
  rw [if_pos h]

/-- Closed instance of `calculate_metrics_insufficient` on a one-point series. -/
theorem calculate_metrics_insufficient_witness :
    [demoO1].length < 2 ∧ calculate_metrics "2024-04-30" [demoO1] (-0.06) (-0.10) = none :=
  ⟨by norm_num,
    calculate_metrics_insufficient "2024-04-30" [demoO1] (-0.06) (-0.10) (by norm_num)⟩

/-- C2: `get_flag` tests the sell threshold first (a value at or below
`sell_threshold` is `SELL` no matter what `warn_threshold` is), then the warn
threshold; both comparisons are boundary-inclusive, with the spec's three
boundary examples. -/
theorem get_flag_spec (n w s : ℚ) :
    (n ≤ s → get_flag n w s = Flag.SELL) ∧
    (s < n → n ≤ w → get_flag n w s = Flag.WARNING) ∧
    (s < n → w < n → get_flag n w s = Flag.OK) ∧
    get_flag (-0.10) (-0.06) (-0.10) = Flag.SELL ∧
    get_flag (-0.06) (-0.06) (-0.10) = Flag.WARNING ∧
    get_flag (-0.0599) (-0.06) (-0.10) = Flag.OK := by
  refine ⟨fun h => by simp [get_flag, h], fun hs hw => ?_, fun hs hw => ?_,
    by norm_num [get_flag], by norm_num [get_flag], by norm_num [get_flag]⟩
  · simp [get_flag, not_le.2 hs, hw]
  · simp [get_flag, not_le.2 hs, not_le.2 hw]

/-- Closed instance of `get_flag_spec`. -/
theorem get_flag_spec_witness :
    ((-0.12 : ℚ) ≤ -0.10 ∧ get_flag (-0.12) (-0.06) (-0.10) = Flag.SELL) ∧
    ((-0.10 : ℚ) < -0.08 ∧ (-0.08 : ℚ) ≤ -0.06 ∧
      get_flag (-0.08) (-0.06) (-0.10) = Flag.WARNING) ∧
    ((-0.10 : ℚ) < -0.01 ∧ (-0.06 : ℚ) < -0.01 ∧
      get_flag (-0.01) (-0.06) (-0.10) = Flag.OK) :=
  ⟨⟨by norm_num, (get_flag_spec (-0.12) (-0.06) (-0.10)).1 (by norm_num)⟩,
    ⟨by norm_num, by norm_num,
      (get_flag_spec (-0.08) (-0.06) (-0.10)).2.1 (by norm_num) (by norm_num)⟩,
    ⟨by norm_num, by norm_num,
      (get_flag_spec (-0.01) (-0.06) (-0.10)).2.2.1 (by norm_num) (by norm_num)⟩⟩

/-- C3: for positive `start_price`, `calculate_nav_erosion` returns
`(end_price - start_price) / start_price`; for non-positive `start_price`
it returns `0`; and it is `0` on a null window. -/
theorem calculate_nav_erosion_spec (s e : ℚ) :
    (0 < s → calculate_nav_erosion s e = (e - s) / s) ∧
    (s ≤ 0 → calculate_nav_erosion s e = 0) ∧
    (0 < s → calculate_nav_erosion s s = 0) := by
  refine ⟨fun h => by simp [calculate_nav_erosion, not_le.2 h], fun h => by
    simp [calculate_nav_erosion, h], fun h => by simp [calculate_nav_erosion, not_le.2 h]⟩

/-- Closed instance of `calculate_nav_erosion_spec`. -/
theorem calculate_nav_erosion_spec_witness :
    ((0 : ℚ) < 20 ∧ calculate_nav_erosion 20 18 = (18 - 20) / 20) ∧
    ((-3 : ℚ) ≤ 0 ∧ calculate_nav_erosion (-3) 18 = 0) ∧
    calculate_nav_erosion 20 20 = 0 :=
  ⟨⟨by norm_num, (calculate_nav_erosion_spec 20 18).1 (by norm_num)⟩,
    ⟨by norm_num, (calculate_nav_erosion_spec (-3) 18).2.1 (by norm_num)⟩,
    (calculate_nav_erosion_spec 20 18).2.2 (by norm_num)⟩

/-- C4: for positive `start_price`, `calculate_true_return` returns
`((end_price - start_price) + total_distributions) / start_price`; for
non-positive `start_price` it returns `0` regardless of the other
arguments. -/
theorem calculate_true_return_spec (s e t : ℚ) :
    (0 < s → calculate_true_return s e t = ((e - s) + t) / s) ∧
    (s ≤ 0 → calculate_true_return s e t = 0) := by
  refine ⟨fun h => by simp [calculate_true_return, not_le.2 h], fun h => by
    simp [calculate_true_return, h]⟩

/-- Closed instance of `calculate_true_return_spec`. -/
theorem calculate_true_return_spec_witness :
    ((0 : ℚ) < 20 ∧ calculate_true_return 20 18 0.60 = ((18 - 20) + 0.60) / 20) ∧
    ((0 : ℚ) ≤ 0 ∧ calculate_true_return 0 18 0.60 = 0) :=
  ⟨⟨by norm_num, (calculate_true_return_spec 20 18 0.60).1 (by norm_num)⟩,
    ⟨le_refl 0, (calculate_true_return_spec 0 18 0.60).2 (le_refl 0)⟩⟩

/-- C9: with zero total distributions the true return reduces to the NAV
erosion, in both the guarded and unguarded cases. -/
theorem calculate_true_return_zero_dist (s e : ℚ) :
    calculate_true_return s e 0 = calculate_nav_erosion s e := by
  unfold calculate_true_return calculate_nav_erosion
  split <;> simp

/-- The degenerate-start series is already in ascending date order. -/
theorem deg_insertionSort : List.insertionSort dateLe [degO1, degO2] = [degO1, degO2] := by
  apply List.Sorted.insertionSort_eq
  have d12 : dateLe degO1 degO2 := by
    show ("2024-01-31" : String) ≤ "2024-02-29"
    simp only [String.le_iff_toList_le]
    decide
  exact List.Sorted.cons d12 (List.sorted_singleton _)

/-- C6: `generate_monthly_breakdown` returns `[]` on empty input; otherwise
one row per observation in ascending date order, each carrying its
observation's date, price and distribution, with cumulative erosion measured
from the first sorted price; the first row's cumulative erosion is `0`. -/
theorem generate_monthly_breakdown_spec (l : List Observation)
    (first : Observation) (rest : List Observation)
    (hs : List.insertionSort dateLe l = first :: rest) :
    generate_monthly_breakdown [] = ([] : List MonthlyBreakdownRow) ∧
    List.Sorted dateLe (first :: rest) ∧ (first :: rest).Perm l ∧
    generate_monthly_breakdown l =
      ((first :: rest).map fun data =>
        ⟨data.year_month.getD (data.date.take 7), data.date, data.close_price,
          data.distribution, calculate_nav_erosion first.close_price data.close_price⟩) ∧
    ((generate_monthly_breakdown l).map MonthlyBreakdownRow.cumulative_erosion_pct).head? =
      some 0 := by
  have heq := generate_monthly_breakdown_eq l first rest hs
  refine ⟨rfl, hs ▸ List.sorted_insertionSort dateLe l, hs ▸ List.perm_insertionSort dateLe l,
    heq, ?_⟩
  rw [heq]
  simp [calculate_nav_erosion_self]

/-- Closed instance of `generate_monthly_breakdown_spec` on the spec's
scenario: cumulative erosion `0`, `-0.05`, `-0.10`. -/
theorem generate_monthly_breakdown_spec_witness :
    List.insertionSort dateLe demoObs = [demoO1, demoO2, demoO3] ∧
    generate_monthly_breakdown demoObs =
      [⟨"2024-01", "2024-01-31", 20, 0.20, 0⟩,
       ⟨"2024-02", "2024-02-29", 19, 0.20, -0.05⟩,
       ⟨"2024-03", "2024-03-31", 18, 0.20, -0.10⟩] := by
  have hmain := generate_monthly_breakdown_spec demoObs demoO1 [demoO2, demoO3]
    demo_insertionSort
  refine ⟨demo_insertionSort, hmain.2.2.2.1.trans ?_⟩
  norm_num [demoO1, demoO2, demoO3, calculate_nav_erosion, MonthlyBreakdownRow.mk.injEq]

/-- C8: `calculate_distribution_yield` returns `0` on an empty series or when
the latest sorted price is non-positive; otherwise it returns
`(sum of distributions / number of observations) * 12 / latest price`, which
is non-negative whenever the distributions are non-negative. -/
theorem calculate_distribution_yield_spec (l : List Observation)
    (first : Observation) (rest : List Observation)
    (hs : List.insertionSort dateLe l = first :: rest) :
    calculate_distribution_yield [] = 0 ∧
    (((first :: rest).getLast (List.cons_ne_nil first rest)).close_price ≤ 0 →
      calculate_distribution_yield l = 0) ∧
    (0 < ((first :: rest).getLast (List.cons_ne_nil first rest)).close_price →
      calculate_distribution_yield l =
        (l.map Observation.distribution).sum / (l.length : ℚ) * 12 /
          ((first :: rest).getLast (List.cons_ne_nil first rest)).close_price) ∧
    (0 < ((first :: rest).getLast (List.cons_ne_nil first rest)).close_price →
      (∀ o ∈ l, 0 ≤ o.distribution) → 0 ≤ calculate_distribution_yield l) := by
  have heq := calculate_distribution_yield_eq l first rest hs
  have hperm : (first :: rest).Perm l := hs ▸ List.perm_insertionSort dateLe l
  have hsum : ((first :: rest).map Observation.distribution).sum =
      (l.map Observation.distribution).sum := (hperm.map Observation.distribution).sum_eq
  have hlen : (first :: rest).length = l.length := hperm.length_eq
  have hpos : ∀ hp : 0 < ((first :: rest).getLast (List.cons_ne_nil first rest)).close_price,
      calculate_distribution_yield l =
        (l.map Observation.distribution).sum / (l.length : ℚ) * 12 /
          ((first :: rest).getLast (List.cons_ne_nil first rest)).close_price := by
    intro hp
    rw [heq, if_neg (by push_neg; exact ⟨not_le.1 (not_le.2 hp), by simp⟩), hsum, hlen]
  refine ⟨rfl, fun h => by rw [heq, if_pos (Or.inl h)], hpos, fun hp hnn => ?_⟩
  rw [hpos hp]
  have h0 : (0 : ℚ) ≤ (l.map Observation.distribution).sum := by
    apply List.sum_nonneg
    intro x hx
    obtain ⟨o, ho, rfl⟩ := List.mem_map.1 hx
    exact hnn o ho
  have h1 : (0 : ℚ) ≤ (l.length : ℚ) := Nat.cast_nonneg _
  exact div_nonneg (mul_nonneg (div_nonneg h0 h1) (by norm_num)) (le_of_lt hp)

/-- Closed instance of `calculate_distribution_yield_spec` on the spec's
scenario: `0.60 / 3 * 12 / 18 = 2/15`, a non-negative fraction. -/
theorem calculate_distribution_yield_spec_witness :
    List.insertionSort dateLe demoObs = [demoO1, demoO2, demoO3] ∧
    (0 : ℚ) < 18 ∧ (∀ o ∈ demoObs, 0 ≤ o.distribution) ∧
    calculate_distribution_yield demoObs = 2 / 15 ∧
    0 ≤ calculate_distribution_yield demoObs := by
  have hmain := calculate_distribution_yield_spec demoObs demoO1 [demoO2, demoO3]
    demo_insertionSort
  have hlast : (([demoO1, demoO2, demoO3].getLast
      (List.cons_ne_nil demoO1 [demoO2, demoO3]))).close_price = 18 := by
    norm_num [demoO3]
  have hnn : ∀ o ∈ demoObs, 0 ≤ o.distribution := by
    intro o ho
    simp only [demoObs, List.mem_cons, List.not_mem_nil, or_false] at ho
    rcases ho with rfl | rfl | rfl <;> norm_num [demoO1, demoO2, demoO3]
  refine ⟨demo_insertionSort, by norm_num, hnn, ?_, ?_⟩
  · refine (hmain.2.2.1 (by rw [hlast]; norm_num)).trans ?_
    rw [hlast]
    norm_num [demoObs, demoO1, demoO2, demoO3]
  · exact hmain.2.2.2 (by rw [hlast]; norm_num) hnn

/-- C10: a series of length at least 2 with a non-positive first sorted price
still yields a snapshot (not `none`): erosion and true return are `0` through
the degenerate-input guard and the flag is `get_flag 0`, which under the
default thresholds `(-0.06, -0.10)` is `OK`. -/
theorem calculate_metrics_degenerate_start (d : String) (l : List Observation) (w s : ℚ)
    (first : Observation) (rest : List Observation)
    (h2 : 2 ≤ l.length) (hs : List.insertionSort dateLe l = first :: rest)
    (hdeg : first.close_price ≤ 0) :
    (calculate_metrics d l w s).isSome = true ∧
    Option.map MetricsSnapshot.nav_erosion_pct (calculate_metrics d l w s) = some 0 ∧
    Option.map MetricsSnapshot.true_return_pct (calculate_metrics d l w s) = some 0 ∧
    Option.map MetricsSnapshot.flag (calculate_metrics d l w s) = some (get_flag 0 w s) ∧
    get_flag 0 (-0.06) (-0.10) = Flag.OK := by
  have heq := calculate_metrics_eq d l w s first rest h2 hs
  have hnav := calculate_nav_erosion_nonpos first.close_price
    ((first :: rest).getLast (List.cons_ne_nil first rest)).close_price hdeg
  have htr := calculate_true_return_nonpos first.close_price
    ((first :: rest).getLast (List.cons_ne_nil first rest)).close_price
    ((first :: rest).map Observation.distribution).sum hdeg
  rw [heq]
  exact ⟨rfl, by simp [hnav], by simpa using htr, by simp [hnav], by norm_num [get_flag]⟩

/-- Closed instance of `calculate_metrics_degenerate_start` on the
zero-start series. -/
theorem calculate_metrics_degenerate_start_witness :
    (2 ≤ ([degO1, degO2] : List Observation).length ∧
      List.insertionSort dateLe [degO1, degO2] = [degO1, degO2] ∧
      degO1.close_price ≤ 0) ∧
    Option.map MetricsSnapshot.nav_erosion_pct
      (calculate_metrics "2024-04-30" [degO1, degO2] (-0.06) (-0.10)) = some 0 ∧
    Option.map MetricsSnapshot.flag
      (calculate_metrics "2024-04-30" [degO1, degO2] (-0.06) (-0.10)) =
        some (get_flag 0 (-0.06) (-0.10)) := by
  have hdeg : degO1.close_price ≤ 0 := by norm_num [degO1]
  have hmain := calculate_metrics_degenerate_start "2024-04-30" [degO1, degO2]
    (-0.06) (-0.10) degO1 [degO2] (by norm_num) deg_insertionSort hdeg
  exact ⟨⟨by norm_num, deg_insertionSort, hdeg⟩, hmain.2.1, hmain.2.2.2.1⟩

/-- C7 (amended): when the observation dates are pairwise distinct — the §3
series invariant — `calculate_metrics` (at a fixed evaluation date) and
`generate_monthly_breakdown` produce identical results on any two
permutations of the same observations. -/
theorem order_independent_of_distinct_dates (d : String) (w s : ℚ)
    (l l2 : List Observation) (hperm : l.Perm l2)
    (hnd : l.Pairwise fun a b => a.date ≠ b.date) :
    calculate_metrics d l w s = calculate_metrics d l2 w s ∧
    generate_monthly_breakdown l = generate_monthly_breakdown l2 := by
  have hnd1 : (List.insertionSort dateLe l).Pairwise fun a b => a.date ≠ b.date :=
    hnd.perm (List.perm_insertionSort dateLe l).symm fun h => h.symm
  have hnd2 : (List.insertionSort dateLe l2).Pairwise fun a b => a.date ≠ b.date :=
    (hnd.perm hperm fun h => h.symm).perm (List.perm_insertionSort dateLe l2).symm
      fun h => h.symm
  have hstrict1 : List.Sorted dateLt (List.insertionSort dateLe l) :=
    ((List.sorted_insertionSort dateLe l).and hnd1).imp fun h => lt_of_le_of_ne h.1 h.2
  have hstrict2 : List.Sorted dateLt (List.insertionSort dateLe l2) :=
    ((List.sorted_insertionSort dateLe l2).and hnd2).imp fun h => lt_of_le_of_ne h.1 h.2
  have hEq : List.insertionSort dateLe l = List.insertionSort dateLe l2 :=
    List.eq_of_perm_of_sorted
      ((List.perm_insertionSort dateLe l).trans
        (hperm.trans (List.perm_insertionSort dateLe l2).symm))
      hstrict1 hstrict2
  have hlen : l.length = l2.length := hperm.length_eq
  have hemp : l.isEmpty = l2.isEmpty := by
    rcases l with _ | ⟨a, as⟩ <;> rcases l2 with _ | ⟨b, bs⟩ <;>
      first
      | rfl
      | exact absurd hperm.length_eq (by simp)
  constructor
  · unfold calculate_metrics
    rw [hlen, hEq]
  · unfold generate_monthly_breakdown
    rw [hemp, hEq]

/-- Closed instance of `order_independent_of_distinct_dates`: the demo
series against one of its nontrivial permutations. -/
theorem order_independent_of_distinct_dates_witness :
    demoObs.Perm [demoO2, demoO1, demoO3] ∧
    (demoObs.Pairwise fun a b => a.date ≠ b.date) ∧
    calculate_metrics "2024-04-30" demoObs (-0.06) (-0.10) =
      calculate_metrics "2024-04-30" [demoO2, demoO1, demoO3] (-0.06) (-0.10) ∧
    generate_monthly_breakdown demoObs =
      generate_monthly_breakdown [demoO2, demoO1, demoO3] := by
  have hp : demoObs.Perm [demoO2, demoO1, demoO3] :=
    (List.Perm.swap demoO2 demoO1 [demoO3])
  have hne12 : demoO1.date ≠ demoO2.date := by
    show ("2024-01-31" : String) ≠ "2024-02-29"
    decide
  have hne13 : demoO1.date ≠ demoO3.date := by
    show ("2024-01-31" : String) ≠ "2024-03-31"
    decide
  have hne23 : demoO2.date ≠ demoO3.date := by
    show ("2024-02-29" : String) ≠ "2024-03-31"
    decide
  have hnd : demoObs.Pairwise fun a b => a.date ≠ b.date := by
    refine List.Pairwise.cons ?_ (List.Pairwise.cons ?_ (List.pairwise_singleton _ _))
    · intro o ho
      rcases List.mem_cons.1 ho with rfl | ho2
      · exact hne12
      · rcases List.mem_singleton.1 ho2 with rfl
        exact hne13
    · intro o ho
      rcases List.mem_singleton.1 ho with rfl
      exact hne23
  have hmain := order_independent_of_distinct_dates "2024-04-30" (-0.06) (-0.10)
    demoObs [demoO2, demoO1, demoO3] hp hnd
  exact ⟨hp, hnd, hmain.1, hmain.2⟩

/-- C7 as literally stated is false: with two observations sharing a date
(but differing in price), the stable sort preserves input order among ties,
so a permutation changes both the snapshot and the breakdown. -/
theorem order_independence_cex :
    ([cexA, cexB] : List Observation).Perm [cexB, cexA] ∧
    calculate_metrics "2024-04-30" [cexA, cexB] (-0.06) (-0.10) ≠
      calculate_metrics "2024-04-30" [cexB, cexA] (-0.06) (-0.10) ∧
    generate_monthly_breakdown [cexA, cexB] ≠ generate_monthly_breakdown [cexB, cexA] := by
  have hle : dateLe cexA cexB := by
    show ("2024-01-31" : String) ≤ "2024-01-31"
    exact le_refl _
  have hle2 : dateLe cexB cexA := by
    show ("2024-01-31" : String) ≤ "2024-01-31"
    exact le_refl _
  have hsAB : List.insertionSort dateLe [cexA, cexB] = [cexA, cexB] :=
    List.Sorted.insertionSort_eq (List.Sorted.cons hle (List.sorted_singleton _))
  have hsBA : List.insertionSort dateLe [cexB, cexA] = [cexB, cexA] :=
    List.Sorted.insertionSort_eq (List.Sorted.cons hle2 (List.sorted_singleton _))
  refine ⟨List.Perm.swap cexB cexA [], ?_, ?_⟩
  · rw [calculate_metrics_eq "2024-04-30" [cexA, cexB] (-0.06) (-0.10) cexA [cexB]
      (by norm_num) hsAB,
      calculate_metrics_eq "2024-04-30" [cexB, cexA] (-0.06) (-0.10) cexB [cexA]
      (by norm_num) hsBA]
    intro hcontra
    have hfield := congrArg (Option.map MetricsSnapshot.start_price) hcontra
    norm_num [cexA, cexB] at hfield
  · rw [generate_monthly_breakdown_eq [cexA, cexB] cexA [cexB] hsAB,
      generate_monthly_breakdown_eq [cexB, cexA] cexB [cexA] hsBA]
    intro hcontra
    have hfield := congrArg (List.map MonthlyBreakdownRow.close_price) hcontra
    norm_num [cexA, cexB] at hfield

end NavErosion
